import Mathlib

/-!
Shallow embedding of the core logic of `src/manjaro_hello.py`:
the locale resolver (`Hello.get_best_locale`), the page loader
(`Hello.get_page`), the autostart toggle (`Hello.set_autostart`)
and the JSON save-file helpers (`read_json` / `write_json`, with
the `Hello.__init__` caller that substitutes the default record).

File systems are modelled as functions from path strings to optional
content; Python exceptions that escape a function are modelled with
`Except`, and exceptions that the source catches are folded into the
returned value, exactly where the source catches them.
-/

set_option autoImplicit false

namespace ManjaroHello

/-- Python `str.replace(needle, repl)` on lists of characters: replace
non-overlapping occurrences left to right.  The `fuel` argument is an
upper bound on the number of steps; it is always instantiated with the
length of the input list, which suffices because every step consumes at
least one character.  (The sources never call `replace` with an empty
needle, so the empty-needle behaviour is irrelevant; the definition
leaves the list unchanged in that case.) -/
def pyReplaceFuel (needle repl : List Char) : Nat → List Char → List Char
  | 0, l => l
  | _ + 1, [] => []
  | fuel + 1, c :: rest =>
    if needle ≠ [] ∧ needle.isPrefixOf (c :: rest) then
      repl ++ pyReplaceFuel needle repl fuel (List.drop (needle.length - 1) rest)
    else
      c :: pyReplaceFuel needle repl fuel rest

/-- Python `s.replace(needle, repl)`. -/
def pyReplace (s needle repl : String) : String :=
  ⟨pyReplaceFuel needle.toList repl.toList s.toList.length s.toList⟩

/-- Does `needle` occur as a contiguous sublist of the haystack? -/
def listContainsSub (needle : List Char) : List Char → Bool
  | [] => needle.isPrefixOf []
  | c :: rest => needle.isPrefixOf (c :: rest) || listContainsSub needle rest

/-- Python `needle in s` (substring containment test on strings). -/
def pyIn (needle s : String) : Bool :=
  listContainsSub needle.toList s.toList

/-- Python `"...{}...".format(x)` for an optional string slot:
`None` is formatted as the string `"None"`. -/
def pyFormatOpt : Option String → String
  | none => "None"
  | some s => s

/-- Python `s[:n]` on a string. -/
def pyTake (n : Nat) (s : String) : String :=
  ⟨s.toList.take n⟩

/-- `fix_path(path)` from the source: if the path contains a tilde,
replace every tilde by the user home directory (`os.path.expanduser("~")`,
passed here explicitly as `home`); otherwise return the path unchanged. -/
def fix_path (home path : String) : String :=
  if pyIn "~" path then pyReplace path "~" home else path

/-- Spec-side description of tilde expansion, used to state C10:
every occurrence of the tilde character, wherever it appears, is
replaced by the home directory, character by character. -/
def expandTilde (home : String) : List Char → List Char
  | [] => []
  | c :: rest => (if c = '~' then home.toList else [c]) ++ expandTilde home rest

/-- A Python exception escaping one of the modelled functions. -/
inductive PyErr where
  /-- `TypeError` (e.g. slicing or `in` applied to `None`). -/
  | typeError
  /-- `json.JSONDecodeError` (a `ValueError`) from `json.load`. -/
  | jsonDecodeError
  deriving DecidableEq, Repr

/-- `Hello.get_best_locale`.  `saved` is `self.save["locale"]`,
`sysLocale` is `locale.getdefaultlocale()[0]` (which may be `None`),
`defaultLocale` is `self.preferences["default_locale"]`, and `ae l`
models `os.path.isfile(path.format(l))`, the existence of the compiled
translation catalog for the locale slot string `l`.

The source returns `self.save["locale"]` (possibly `None`) in the first
branch, hence the `Option String` result.  When `sys_locale` is `None`,
`"_" in sys_locale` and `sys_locale[:2]` raise `TypeError`; both points
are modelled with `Except.error PyErr.typeError`. -/
def get_best_locale (saved sysLocale : Option String) (defaultLocale : String)
    (ae : String → Bool) : Except PyErr (Option String) :=
  if ae (pyFormatOpt saved) then
    .ok saved
  else if saved = some defaultLocale then
    .ok (some defaultLocale)
  else
    if ae (pyFormatOpt sysLocale) then
      match sysLocale with
      | none => .error .typeError
      | some s =>
        if pyIn "_" s then .ok (some (pyReplace s "_" "-")) else .ok (some s)
    else
      match sysLocale with
      | none => .error .typeError
      | some s =>
        if ae (pyTake 2 s) then .ok (some (pyTake 2 s)) else .ok (some defaultLocale)

/-- The path of a page file, `data_path + "pages/{}/{}".format(loc, name)`. -/
def pagePath (dataPath loc name : String) : String :=
  dataPath ++ "pages/" ++ loc ++ "/" ++ name

/-- The translated string `_("Can't load page.")` returned when the opened
page file cannot be read; `tr` models the installed gettext translation.
(The apostrophe is spelled via its code point.) -/
def cantLoadMsg (tr : String → String) : String :=
  tr ("Can" ++ String.singleton (Char.ofNat 39) ++ "t load page.")

/-- `Hello.get_page`.  `savedLocale` is `self.save["locale"]` (formatted with
`str.format`, so `None` becomes `"None"`), `isfile` models `os.path.isfile`,
and `readF` models opening and reading a file (which can fail with `OSError`
even when `isfile` returned true).  The `try/except OSError` of the source
turns a read failure into the translated fallback message. -/
def get_page (tr : String → String) (dataPath : String) (savedLocale : Option String)
    (defaultLocale : String) (isfile : String → Bool)
    (readF : String → Except Unit String) (name : String) : String :=
  let f1 := pagePath dataPath (pyFormatOpt savedLocale) name
  let f := if isfile f1 then f1 else pagePath dataPath defaultLocale name
  match readF f with
  | .ok s => s
  | .error _ => cantLoadMsg tr

/-- The filesystem state touched by `Hello.set_autostart`: existence of the
autostart symlink (`os.path.isfile` of the fixed autostart path) and the
content of the optional i3 config file `~/.i3/config` (`none` when the file
does not exist). -/
structure SysState where
  linkExists : Bool
  i3config : Option String
  deriving DecidableEq, Repr

/-- The i3 launch directive `"exec --no-startup-id " + self.app`. -/
def i3directive : String :=
  "exec --no-startup-id manjaro-hello"

/-- The body of the `try` block of `Hello.set_autostart`: symlink creation or
removal followed by the i3 config rewrite.  The booleans `sOk`, `uOk`, `iOk`
inject `OSError` failures into `os.symlink`, `os.unlink` and the i3 config
open/read/write respectively; an error result carries the filesystem state at
the point where the exception was raised (earlier effects are kept). -/
def autostartTry (sOk uOk iOk : Bool) (b : Bool) (st : SysState) :
    Except SysState SysState :=
  let step1 : Except SysState SysState :=
    if b && !st.linkExists then
      if sOk then .ok { st with linkExists := true } else .error st
    else if !b && st.linkExists then
      if uOk then .ok { st with linkExists := false } else .error st
    else
      .ok st
  match step1 with
  | .error s => .error s
  | .ok s1 =>
    match s1.i3config with
    | none => .ok s1
    | some content =>
      if iOk then
        let newContent :=
          if b then
            pyReplace content ("#" ++ i3directive) i3directive
          else
            pyReplace content i3directive ("#" ++ i3directive)
        .ok { s1 with i3config := some newContent }
      else
        .error s1

/-- The in-memory state relevant to `set_autostart`: the filesystem plus the
`self.autostart` flag. -/
structure HelloState where
  sys : SysState
  autostart : Bool
  deriving DecidableEq, Repr

/-- `Hello.set_autostart`.  Returns the resulting state together with a flag
that is true exactly when an `OSError` was caught (and printed) by the
`except` clause.  On the error path `self.autostart = autostart` was never
executed, so the flag keeps its previous value. -/
def set_autostart (sOk uOk iOk : Bool) (b : Bool) (h : HelloState) :
    HelloState × Bool :=
  match autostartTry sOk uOk iOk b h.sys with
  | .ok s => ({ sys := s, autostart := b }, false)
  | .error s => ({ sys := s, autostart := h.autostart }, true)

/-- A scalar JSON value: `null`, a boolean, or a string. -/
inductive JVal where
  | null
  | bool (b : Bool)
  | str (s : String)
  deriving DecidableEq, Repr

/-- A JSON document, restricted to the shape of the records this application
persists: a scalar, or a flat object whose values are scalars (the save file
is the object with the single member `"locale"`, a string or `null`).
Arrays, numbers and nested objects never occur in the modelled round trip
and are outside this model. -/
inductive Json where
  | val (v : JVal)
  | obj (fields : List (String × JVal))
  deriving DecidableEq, Repr

/-- Python truthiness of a parsed JSON value (`if not self.save`):
`None`, `False`, `""` and the empty object are falsy. -/
def jsonTruthy : Json → Bool
  | .val .null => false
  | .val (.bool b) => b
  | .val (.str s) => !s.isEmpty
  | .obj fields => !fields.isEmpty

/-- Serialize one character of a JSON string, escaping quote and backslash. -/
def escChar (c : Char) : String :=
  if c = '\\' then "\\\\"
  else if c = '"' then "\\\""
  else String.singleton c

/-- Serialize a JSON string with its surrounding quotes. -/
def dumpStr (s : String) : String :=
  "\"" ++ String.join (s.toList.map escChar) ++ "\""

/-- Serialize a scalar value. -/
def dumpJVal : JVal → String
  | .null => "null"
  | .bool true => "true"
  | .bool false => "false"
  | .str s => dumpStr s

/-- Serialize object members with `json.dump`'s default separators
(`", "` between members, `": "` after each key). -/
def dumpMembers : List (String × JVal) → String
  | [] => ""
  | [(k, v)] => dumpStr k ++ ": " ++ dumpJVal v
  | (k, v) :: rest => dumpStr k ++ ": " ++ dumpJVal v ++ ", " ++ dumpMembers rest

/-- An opening brace as a string. -/
def lbrace : String := String.singleton (Char.ofNat 123)

/-- A closing brace as a string. -/
def rbrace : String := String.singleton (Char.ofNat 125)

/-- `json.dump` (default separators) on the modelled JSON subset. -/
def dumpJson : Json → String
  | .val v => dumpJVal v
  | .obj fields => lbrace ++ dumpMembers fields ++ rbrace

/-- Drop leading JSON whitespace. -/
def skipWs : List Char → List Char
  | [] => []
  | c :: rest =>
    if c = ' ' || c = '\t' || c = '\n' || c = '\r' then skipWs rest else c :: rest

/-- Parse the body of a JSON string after its opening quote, handling the
`\"` and `\\` escapes; returns the characters and the rest of the input. -/
def parseStrChars : List Char → Option (List Char × List Char)
  | [] => none
  | '"' :: rest => some ([], rest)
  | '\\' :: c :: rest =>
    if c = '"' || c = '\\' then
      match parseStrChars rest with
      | some (l, r) => some (c :: l, r)
      | none => none
    else
      none
  | c :: rest =>
    match parseStrChars rest with
    | some (l, r) => some (c :: l, r)
    | none => none

/-- Parse a scalar JSON value at the head of the input. -/
def parseJVal : List Char → Option (JVal × List Char)
  | 'n' :: 'u' :: 'l' :: 'l' :: rest => some (.null, rest)
  | 't' :: 'r' :: 'u' :: 'e' :: rest => some (.bool true, rest)
  | 'f' :: 'a' :: 'l' :: 's' :: 'e' :: rest => some (.bool false, rest)
  | '"' :: rest =>
    match parseStrChars rest with
    | some (l, r) => some (.str ⟨l⟩, r)
    | none => none
  | _ => none

/-- Parse a non-empty member list of a flat JSON object, up to and including
the closing brace.  `fuel` bounds the number of members; it is instantiated
with the input length, which suffices since every member consumes at least
one character. -/
def parseMembers : Nat → List Char → Option (List (String × JVal) × List Char)
  | 0, _ => none
  | fuel + 1, l =>
    match skipWs l with
    | '"' :: rest =>
      match parseStrChars rest with
      | none => none
      | some (key, rest1) =>
        match skipWs rest1 with
        | ':' :: rest2 =>
          match parseJVal (skipWs rest2) with
          | none => none
          | some (v, rest3) =>
            match skipWs rest3 with
            | ',' :: rest4 =>
              match parseMembers fuel rest4 with
              | some (ms, rest5) => some ((⟨key⟩, v) :: ms, rest5)
              | none => none
            | '}' :: rest4 => some ([(⟨key⟩, v)], rest4)
            | _ => none
        | _ => none
    | _ => none

/-- `json.load` on the modelled JSON subset: a scalar or flat object,
followed only by whitespace.  `none` models `json.JSONDecodeError`. -/
def parseJson (s : String) : Option Json :=
  match skipWs s.toList with
  | '{' :: rest =>
    match skipWs rest with
    | '}' :: rest1 => if (skipWs rest1).isEmpty then some (.obj []) else none
    | rest1 =>
      match parseMembers s.toList.length rest1 with
      | some (ms, rest2) => if (skipWs rest2).isEmpty then some (.obj ms) else none
      | none => none
  | l =>
    match parseJVal l with
    | some (v, rest) => if (skipWs rest).isEmpty then some (.val v) else none
    | none => none

/-- `read_json`.  The filesystem `fs` maps a path to its readable content
(`none`: the file is absent or unreadable, so `open`/`read` raises `OSError`,
which the source catches and turns into `None`).  Content that `json.load`
cannot parse raises `json.JSONDecodeError`, a `ValueError`, which the
`except OSError` clause does NOT catch: it escapes as `.error`. -/
def read_json (home : String) (fs : String → Option String) (path : String) :
    Except PyErr (Option Json) :=
  let p := fix_path home path
  match fs p with
  | none => .ok none
  | some content =>
    match parseJson content with
    | some v => .ok (some v)
    | none => .error .jsonDecodeError

/-- `write_json`: serialize `content` to the fixed path, returning the
updated filesystem. -/
def write_json (home : String) (fs : String → Option String) (path : String)
    (content : Json) : String → Option String :=
  fun q => if q = fix_path home path then some (dumpJson content) else fs q

/-- The save-record initialization in `Hello.__init__`:
`self.save = read_json(save_path)` followed by
`if not self.save: self.save = {"locale": None}`. -/
def initSave (home : String) (fs : String → Option String) (savePath : String) :
    Except PyErr Json :=
  match read_json home fs savePath with
  | .error e => .error e
  | .ok none => .ok (Json.obj [("locale", JVal.null)])
  | .ok (some v) => .ok (if jsonTruthy v then v else Json.obj [("locale", JVal.null)])

/-! Theorems about the embedded program. -/

/-- C7: for every saved locale `S` whose translation asset exists,
`get_best_locale` returns `S` unchanged, whatever the system locale and the
default locale are (saved preference takes strict precedence). -/
theorem get_best_locale_returns_saved_when_asset_exists
    (S : String) (sysLocale : Option String) (d : String) (ae : String → Bool)
    (h : ae S = true) :
    get_best_locale (some S) sysLocale d ae = .ok (some S) := by
  unfold get_best_locale
  have hfmt : pyFormatOpt (some S) = S := rfl
  rw [hfmt, h]
  simp

/-- Witness for C7 at a concrete input. -/
theorem get_best_locale_returns_saved_when_asset_exists_witness :
    get_best_locale (some "fr") (some "de_DE") "en" (fun s => s == "fr")
      = .ok (some "fr") :=
  get_best_locale_returns_saved_when_asset_exists "fr" (some "de_DE") "en"
    (fun s => s == "fr") rfl

/-- C2 (code bug): when the system locale cannot be determined
(`locale.getdefaultlocale()[0]` is `None`) and the saved locale's asset does
not exist and the saved locale differs from the default, the source does NOT
return the default locale: evaluating `sys_locale[:2]` (or `"_" in
sys_locale`) on `None` raises a `TypeError`, which nothing catches. -/
theorem get_best_locale_raises_on_undetermined_sys_locale :
    get_best_locale (some "fr") none "en" (fun _ => false)
      = .error PyErr.typeError := rfl

/-- C1 (claim as stated is false): with saved locale `"fr"` (no asset),
default `"en"`, system locale `"de_DE"` and an asset exactly for `"de_DE"`,
the resolver returns `"de-DE"`, for which no asset exists and which is not
the default: the hyphen-style candidate is returned after checking the asset
for the underscore-style identifier only. -/
theorem get_best_locale_hyphen_candidate_unchecked :
    get_best_locale (some "fr") (some "de_DE") "en" (fun s => s == "de_DE")
        = .ok (some "de-DE")
      ∧ (fun s => s == "de_DE") "de-DE" = false
      ∧ "de-DE" ≠ "en" := by
  refine ⟨rfl, rfl, ?_⟩
  decide

/-- C1 (amended): every locale identifier returned by `get_best_locale`
satisfies the asset-existence predicate, unless it equals the default locale
or it is the hyphen-style form of an underscore-containing system locale
whose underscore-style identifier satisfies the predicate. -/
theorem get_best_locale_result_asset_or_default_or_hyphen
    (saved sysLocale : Option String) (d : String) (ae : String → Bool)
    (r : String) (h : get_best_locale saved sysLocale d ae = .ok (some r)) :
    ae r = true ∨ r = d ∨
      ∃ s, sysLocale = some s ∧ ae s = true ∧ pyIn "_" s = true ∧
        r = pyReplace s "_" "-" := by
  unfold get_best_locale at h
  by_cases h1 : ae (pyFormatOpt saved) = true
  · rw [if_pos h1] at h
    cases saved with
    | none => simp at h
    | some s =>
      simp only [Except.ok.injEq, Option.some.injEq] at h
      subst h
      exact Or.inl h1
  · rw [if_neg h1] at h
    by_cases h2 : saved = some d
    · rw [if_pos h2] at h
      simp only [Except.ok.injEq, Option.some.injEq] at h
      exact Or.inr (Or.inl h.symm)
    · rw [if_neg h2] at h
      by_cases h3 : ae (pyFormatOpt sysLocale) = true
      · rw [if_pos h3] at h
        cases sysLocale with
        | none => simp at h
        | some s =>
          dsimp only at h
          by_cases h4 : pyIn "_" s = true
          · rw [if_pos h4] at h
            simp only [Except.ok.injEq, Option.some.injEq] at h
            exact Or.inr (Or.inr ⟨s, rfl, h3, h4, h.symm⟩)
          · rw [if_neg h4] at h
            simp only [Except.ok.injEq, Option.some.injEq] at h
            subst h
            exact Or.inl h3
      · rw [if_neg h3] at h
        cases sysLocale with
        | none => simp at h
        | some s =>
          dsimp only at h
          by_cases h5 : ae (pyTake 2 s) = true
          · rw [if_pos h5] at h
            simp only [Except.ok.injEq, Option.some.injEq] at h
            subst h
            exact Or.inl h5
          · rw [if_neg h5] at h
            simp only [Except.ok.injEq, Option.some.injEq] at h
            exact Or.inr (Or.inl h.symm)

/-- Witness for the amended C1 at a concrete input. -/
theorem get_best_locale_result_asset_or_default_or_hyphen_witness :
    (fun s => s == "de_DE") "de-DE" = true ∨ "de-DE" = "en" ∨
      ∃ s, (some "de_DE" : Option String) = some s ∧
        (fun t => t == "de_DE") s = true ∧ pyIn "_" s = true ∧
        "de-DE" = pyReplace s "_" "-" :=
  get_best_locale_result_asset_or_default_or_hyphen (some "fr") (some "de_DE")
    "en" (fun s => s == "de_DE") "de-DE" rfl

/-- C5: whenever `set_autostart` catches an `OSError` (the reported-error
flag of the result is true), the in-memory `self.autostart` flag keeps the
value it had before the call; the error is caught inside the operation
(`set_autostart` is a total function on the modelled state). -/
theorem set_autostart_error_leaves_flag_unchanged
    (sOk uOk iOk b : Bool) (h : HelloState)
    (herr : (set_autostart sOk uOk iOk b h).2 = true) :
    (set_autostart sOk uOk iOk b h).1.autostart = h.autostart := by
  unfold set_autostart at herr ⊢
  cases hx : autostartTry sOk uOk iOk b h.sys with
  | ok s => rw [hx] at herr; simp at herr
  | error s => rfl

/-- Witness for C5: a failing `os.unlink` leaves the flag at its old value. -/
theorem set_autostart_error_leaves_flag_unchanged_witness :
    (set_autostart true false true false
        { sys := { linkExists := true, i3config := none }, autostart := true }).1.autostart
      = true :=
  set_autostart_error_leaves_flag_unchanged true false true false
    { sys := { linkExists := true, i3config := none }, autostart := true } rfl

/-- A starting state for the autostart toggle: the symlink exists and the
i3 config file holds the uncommented launch directive. -/
def i3StartState : HelloState :=
  { sys := { linkExists := true, i3config := some "exec --no-startup-id manjaro-hello" },
    autostart := true }

/-- C3 (code bug): two consecutive `set_autostart(False)` calls are NOT
idempotent when the i3 config file exists.  Starting from a registered state
whose i3 config holds the plain directive, the first call comments it
(`#exec ...`), but the second call finds the directive as a substring of the
commented line and prepends another comment marker (`##exec ...`): the
filesystem state after the second call differs from the state after the
first, although the second call reports no error. -/
theorem set_autostart_false_twice_changes_i3_config :
    (set_autostart true true true false (set_autostart true true true false i3StartState).1).2
        = false
      ∧ (set_autostart true true true false i3StartState).1.sys.i3config
        = some "#exec --no-startup-id manjaro-hello"
      ∧ (set_autostart true true true false
            (set_autostart true true true false i3StartState).1).1.sys.i3config
        = some "##exec --no-startup-id manjaro-hello" := by
  refine ⟨rfl, ?_, ?_⟩ <;> decide

/-- C4: `get_page` returns the requested locale's page body when that file
is present and readable; otherwise it opens the default locale's file,
returning its body when readable; when that read fails as well (both files
absent), it returns the translated fallback message instead of an error. -/
theorem get_page_locale_then_default_then_message
    (tr : String → String) (dataPath : String) (savedLocale : Option String)
    (defaultLocale : String) (isfile : String → Bool)
    (readF : String → Except Unit String) (name : String) :
    (∀ body, isfile (pagePath dataPath (pyFormatOpt savedLocale) name) = true →
      readF (pagePath dataPath (pyFormatOpt savedLocale) name) = .ok body →
      get_page tr dataPath savedLocale defaultLocale isfile readF name = body)
    ∧ (∀ body, isfile (pagePath dataPath (pyFormatOpt savedLocale) name) = false →
      readF (pagePath dataPath defaultLocale name) = .ok body →
      get_page tr dataPath savedLocale defaultLocale isfile readF name = body)
    ∧ (isfile (pagePath dataPath (pyFormatOpt savedLocale) name) = false →
      readF (pagePath dataPath defaultLocale name) = .error () →
      get_page tr dataPath savedLocale defaultLocale isfile readF name
        = cantLoadMsg tr) := by
  refine ⟨?_, ?_, ?_⟩
  · intro body h1 h2
    simp [get_page, h1, h2]
  · intro body h1 h2
    simp [get_page, h1, h2]
  · intro h1 h2
    simp [get_page, h1, h2]

/-- Witness for C4: all three branches at concrete page layouts. -/
theorem get_page_locale_then_default_then_message_witness :
    (get_page id "data/" (some "fr") "en" (fun p => p == "data/pages/fr/about")
        (fun p => if p == "data/pages/fr/about" then .ok "Bonjour" else .error ())
        "about" = "Bonjour")
    ∧ (get_page id "data/" (some "fr") "en" (fun _ => false)
        (fun p => if p == "data/pages/en/about" then .ok "About text" else .error ())
        "about" = "About text")
    ∧ (get_page id "data/" (some "fr") "en" (fun _ => false) (fun _ => .error ())
        "about" = cantLoadMsg id) :=
  ⟨(get_page_locale_then_default_then_message id "data/" (some "fr") "en"
      (fun p => p == "data/pages/fr/about")
      (fun p => if p == "data/pages/fr/about" then .ok "Bonjour" else .error ())
      "about").1 "Bonjour" (by decide) rfl,
   (get_page_locale_then_default_then_message id "data/" (some "fr") "en"
      (fun _ => false)
      (fun p => if p == "data/pages/en/about" then .ok "About text" else .error ())
      "about").2.1 "About text" rfl rfl,
   (get_page_locale_then_default_then_message id "data/" (some "fr") "en"
      (fun _ => false) (fun _ => .error ()) "about").2.2 rfl rfl⟩

/-- C8: `get_page` never propagates an error to its caller: it is a total
function into strings, and its result is either the successfully read
content of the file it opened or the translated fallback message. -/
theorem get_page_never_raises
    (tr : String → String) (dataPath : String) (savedLocale : Option String)
    (defaultLocale : String) (isfile : String → Bool)
    (readF : String → Except Unit String) (name : String) :
    get_page tr dataPath savedLocale defaultLocale isfile readF name
        = cantLoadMsg tr
      ∨ ∃ p, readF p
        = .ok (get_page tr dataPath savedLocale defaultLocale isfile readF name) := by
  unfold get_page
  dsimp only
  cases hr :
      readF (if isfile (pagePath dataPath (pyFormatOpt savedLocale) name) then
        pagePath dataPath (pyFormatOpt savedLocale) name
      else pagePath dataPath defaultLocale name) with
  | ok s =>
    right
    exact ⟨_, hr⟩
  | error e =>
    left
    rfl

/-- C6 (code bug): `read_json` only catches `OSError`, so a save file whose
content `json.load` cannot parse raises `json.JSONDecodeError` (a
`ValueError`) out of `read_json` and out of the `Hello.__init__` caller,
instead of being treated as the empty record.  An absent file, by contrast,
is handled: `read_json` returns `None` and the caller substitutes
`{"locale": None}`. -/
theorem read_json_malformed_content_raises :
    read_json "/home/u" (fun _ => some "not json") "~/.config/save.json"
        = .error PyErr.jsonDecodeError
      ∧ initSave "/home/u" (fun _ => some "not json") "~/.config/save.json"
        = .error PyErr.jsonDecodeError
      ∧ initSave "/home/u" (fun _ => none) "~/.config/save.json"
        = .ok (Json.obj [("locale", JVal.null)]) := by
  refine ⟨?_, ?_, ?_⟩ <;> rfl

/-- C9: writing the save record whose `locale` is `"de"` with `write_json`
and reading the same path back with `read_json` yields the record with
`locale = "de"`, for every starting filesystem, home directory and path. -/
theorem write_json_read_json_roundtrip_locale_de
    (home : String) (fs : String → Option String) (path : String) :
    read_json home (write_json home fs path (Json.obj [("locale", JVal.str "de")])) path
      = .ok (some (Json.obj [("locale", JVal.str "de")])) := by
  unfold read_json write_json
  dsimp only
  rw [if_pos rfl]
  rfl

/-- With the single-character needle `'~'` and enough fuel, `pyReplaceFuel`
replaces exactly the tilde characters, each by the home directory. -/
theorem pyReplaceFuel_tilde (home : String) :
    ∀ (l : List Char) (fuel : Nat), l.length ≤ fuel →
      pyReplaceFuel ['~'] home.toList fuel l = expandTilde home l := by
  intro l
  induction l with
  | nil =>
    intro fuel _
    cases fuel <;> rfl
  | cons c rest ih =>
    intro fuel hf
    cases fuel with
    | zero => simp at hf
    | succ f =>
      have hrest : rest.length ≤ f := by
        simp only [List.length_cons] at hf
        omega
      by_cases hc : c = '~'
      · subst hc
        simp only [pyReplaceFuel, List.isPrefixOf, expandTilde]
        simp
        exact ih f hrest
      · simp only [pyReplaceFuel, List.isPrefixOf, expandTilde]
        simp [hc, Ne.symm hc]
        exact ih f hrest

/-- A character list without a tilde is left unchanged by tilde expansion. -/
theorem expandTilde_of_no_tilde (home : String) :
    ∀ l : List Char, listContainsSub ['~'] l = false → expandTilde home l = l := by
  intro l
  induction l with
  | nil => intro _; rfl
  | cons c rest ih =>
    intro h
    simp only [listContainsSub, List.isPrefixOf, Bool.or_eq_false_iff,
      Bool.and_eq_false_iff] at h
    have hc : ¬c = '~' := by
      intro hh
      subst hh
      simp [List.isPrefixOf] at h
    simp [expandTilde, hc, ih h.2]

/-- C10: `fix_path` replaces every occurrence of the tilde character,
wherever it appears in the path, by the home directory, and returns a path
containing no tilde unchanged. -/
theorem fix_path_replaces_every_tilde (home path : String) :
    (pyIn "~" path = false → fix_path home path = path)
    ∧ (fix_path home path).toList = expandTilde home path.toList := by
  constructor
  · intro h
    simp [fix_path, h]
  · by_cases h : pyIn "~" path = true
    · simp only [fix_path, h, if_true]
      show pyReplaceFuel "~".toList home.toList path.toList.length path.toList = _
      exact pyReplaceFuel_tilde home path.toList path.toList.length (Nat.le_refl _)
    · have hfalse : pyIn "~" path = false := by
        cases hv : pyIn "~" path
        · rfl
        · exact absurd hv h
      simp only [fix_path, hfalse]
      have : listContainsSub ['~'] path.toList = false := hfalse
      rw [expandTilde_of_no_tilde home path.toList this]
      simp

/-- Witness for C10: a tilde-free path is unchanged; an interior tilde is
expanded. -/
theorem fix_path_replaces_every_tilde_witness :
    fix_path "/home/u" "abc" = "abc"
    ∧ (fix_path "/home/u" "a~b").toList = expandTilde "/home/u" "a~b".toList :=
  ⟨(fix_path_replaces_every_tilde "/home/u" "abc").1 rfl,
   (fix_path_replaces_every_tilde "/home/u" "a~b").2⟩

end ManjaroHello
